import Mathlib

/-!
Verification of `djblets/log/middleware.py` (`LoggingMiddleware`): a shallow
embedding of the middleware's three lifecycle hooks (`process_request`,
`process_view`, `process_response`) and its two lazy-initialization helpers
(`ensure_loggers`, `ensure_profile_logger`), together with theorems settling
the specification's claims about them.

The Python `logging` standard-library calls the middleware makes are modelled
at the granularity the middleware observes: handlers attached to the root
logger and to the "profile" logger, the root logger's level, and the records
submitted to each logger.  `cProfile.Profile` is modelled as a recorder of
profiled calls whose `runcall` returns the wrapped function's result
unchanged; timing content of the statistics is abstracted into the rendering
function `Profiler.print_stats`.
-/

namespace Djblets

/-- Python truthiness of an optional string setting: `None` and `""` are falsy,
any other string is truthy.  This is the test `not log_directory` /
`not log_name` performs in the source. -/
def truthyStr : Option String → Bool
  | none => false
  | some s => !(s == "")

/-- Whether a string starts with the character `/`. -/
def startsWithSlash (s : String) : Bool :=
  s.data.head? == some '/'

/-- Whether a string ends with the character `/`. -/
def endsWithSlash (s : String) : Bool :=
  s.data.getLast? == some '/'

/-- Model of `os.path.join` on two POSIX components, as used by the source:
an absolute second component replaces the first, otherwise the components are
joined with a `/` separator unless one is already present. -/
def os_path_join (a b : String) : String :=
  if startsWithSlash b then b
  else if a == "" || endsWithSlash a then a ++ b
  else a ++ "/" ++ b

/-- Python's whitespace test used by `str.strip()` (the whitespace characters
occurring in profiler output). -/
def isSpaceChar (c : Char) : Bool :=
  c == ' ' || c == '\t' || c == '\n' || c == '\r' || c == '\x0b' || c == '\x0c'

/-- Model of Python's `str.strip()`: remove leading and trailing whitespace. -/
def pyStrip (s : String) : String :=
  String.mk (((s.data.dropWhile isSpaceChar).reverse.dropWhile isSpaceChar).reverse)

/-- Model of `logging.getLevelName` applied to the level-name strings the
middleware documents (`DEBUG`, `INFO`, `WARNING`, `ERROR`, `CRITICAL`);
unknown names fall back to `NOTSET` (0). -/
def getLevelName (s : String) : Nat :=
  if s == "CRITICAL" then 50
  else if s == "ERROR" then 40
  else if s == "WARNING" then 30
  else if s == "INFO" then 20
  else if s == "DEBUG" then 10
  else 0

/-- The Django settings the middleware reads.  Fields read through
`getattr(settings, name, default)` in the source are optional here; `DEBUG`
is accessed directly and therefore required. -/
structure Settings where
  LOGGING_ENABLED : Bool
  LOGGING_DIRECTORY : Option String
  LOGGING_NAME : Option String
  LOGGING_ALLOW_PROFILING : Bool
  LOGGING_LINE_FORMAT : Option String
  LOGGING_LEVEL : Option String
  DEBUG : Bool
deriving Repr, DecidableEq

/-- The parts of a Django request the middleware reads: the query parameters
(`request.GET`), the path and the HTTP method. -/
structure Request where
  GET : List (String × String)
  path : String
  method : String
deriving Repr, DecidableEq

/-- The membership test `'profiling' in request.GET` from the source: the
query string carries a `profiling` parameter with any value. -/
def Request.hasProfiling (r : Request) : Bool :=
  r.GET.any (fun kv => kv.1 == "profiling")

/-- A Django response; the middleware never reads or writes its fields, so
content and status suffice to state that it is returned unmodified. -/
structure Response where
  content : String
  status : Nat
deriving Repr, DecidableEq

/-- A `logging` handler, as configured by the middleware: either a
`FileHandler` (path, open mode, handler level, line format) or a
`StreamHandler` to the console (handler level, line format). -/
inductive Handler where
  | file (path : String) (mode : String) (level : Nat) (format : String)
  | stream (level : Nat) (format : String)
deriving Repr, DecidableEq

/-- The handler's own level (`Handler.setLevel`; `NOTSET` = 0 when unset). -/
def Handler.level : Handler → Nat
  | .file _ _ l _ => l
  | .stream l _ => l

/-- The handler's line format. -/
def Handler.format : Handler → String
  | .file _ _ _ f => f
  | .stream _ f => f

/-- The level from which a root-logger handler actually emits records: the
root logger drops records below its own level and the handler drops records
below the handler level, so the effective threshold is the max of the two. -/
def Handler.effectiveLevel (h : Handler) (rootLevel : Nat) : Nat :=
  max h.level rootLevel

/-- The process-wide logging state the middleware mutates: the module globals
`_logging_setup` and `_profile_log`, the root logger's level, handlers and
submitted records, and the records submitted to the `"profile"` logger. -/
structure LogState where
  logging_setup : Bool
  root_level : Nat
  root_handlers : List Handler
  root_records : List (Nat × String)
  profile_log : Option (List Handler)
  profile_records : List (Nat × String)
deriving Repr, DecidableEq

/-- The state of a fresh process: `_logging_setup = False`, `_profile_log =
None`, no handlers, root logger at its default level `WARNING` (30). -/
def LogState.initial : LogState :=
  { logging_setup := false
    root_level := 30
    root_handlers := []
    root_records := []
    profile_log := none
    profile_records := [] }

/-- Model of `logging.basicConfig(level=…, format=…, filename=…, filemode=…)`:
when the root logger has no handlers yet, attach a `FileHandler` on the given
path and mode carrying the given format (the handler's own level stays
`NOTSET`) and set the root logger's level; otherwise do nothing. -/
def basicConfig (st : LogState) (level : Nat) (format filename filemode : String) :
    LogState :=
  if st.root_handlers.isEmpty then
    { st with
        root_handlers := [Handler.file filename filemode 0 format]
        root_level := level }
  else st

/-- Model of `logging.info(msg)`: submit a record at level `INFO` (20) to the
root logger; it is recorded when the root level admits it. -/
def logInfo (st : LogState) (msg : String) : LogState :=
  if st.root_level ≤ 20 then
    { st with root_records := st.root_records ++ [(20, msg)] }
  else st

/-- Model of `_profile_log.log(logging.INFO, msg)`.  `Logger.log` first checks
`isEnabledFor(INFO)` against the logger's effective level; the `"profile"`
logger's own level is never set (`NOTSET`), so its effective level is
inherited from the root logger.  The record therefore reaches the profiling
sink only when the root level admits `INFO` (20); otherwise the call returns
without writing anything. -/
def profileLogInfo (st : LogState) (msg : String) : LogState :=
  if st.root_level ≤ 20 then
    { st with profile_records := st.profile_records ++ [(20, msg)] }
  else st

/-- `LoggingMiddleware.DEFAULT_LOG_LEVEL`. -/
def DEFAULT_LOG_LEVEL : String := "DEBUG"

/-- `LoggingMiddleware.DEFAULT_LINE_FORMAT`. -/
def DEFAULT_LINE_FORMAT : String := "%(asctime)s - %(levelname)s - %(message)s"

/-- `LoggingMiddleware.ensure_loggers`: set up the main loggers once.  If the
global flag is already set, return; if logging is disabled or directory or
name is missing, return silently; otherwise configure the root logger via
`basicConfig` on `{directory}/{name}.log` in append mode, mirror to a console
handler when `settings.DEBUG`, announce the log path at `INFO`, and set the
global flag. -/
def ensure_loggers (settings : Settings) (st : LogState) : LogState :=
  if st.logging_setup then st
  else
    let enabled := settings.LOGGING_ENABLED
    let log_directory := settings.LOGGING_DIRECTORY
    let log_name := settings.LOGGING_NAME
    if !enabled || !truthyStr log_directory || !truthyStr log_name then st
    else
      let log_level_name := settings.LOGGING_LEVEL.getD DEFAULT_LOG_LEVEL
      let log_level := getLevelName log_level_name
      let format_str := settings.LOGGING_LINE_FORMAT.getD DEFAULT_LINE_FORMAT
      let log_path := os_path_join (log_directory.getD "") (log_name.getD "" ++ ".log")
      let st1 := basicConfig st log_level format_str log_path "a"
      let st2 :=
        if settings.DEBUG then
          { st1 with root_handlers := st1.root_handlers ++ [Handler.stream log_level format_str] }
        else st1
      let st3 := logInfo st2
        ("Logging to " ++ log_path ++ " with a minimum level of " ++ log_level_name)
      { st3 with logging_setup := true }

/-- `LoggingMiddleware.ensure_profile_logger`: set up the profiling logger
once.  Only when logging is enabled, directory and name are set, no profile
log exists yet and profiling is allowed, attach a `FileHandler` on
`{directory}/{name}.prof` at level `INFO` with an asctime-plus-message format
to the `"profile"` logger and store it in the global `_profile_log`. -/
def ensure_profile_logger (settings : Settings) (st : LogState) : LogState :=
  let enabled := settings.LOGGING_ENABLED
  let log_directory := settings.LOGGING_DIRECTORY
  let log_name := settings.LOGGING_NAME
  if enabled && truthyStr log_directory && truthyStr log_name &&
      st.profile_log.isNone && settings.LOGGING_ALLOW_PROFILING then
    let handler := Handler.file
      (os_path_join (log_directory.getD "") (log_name.getD "" ++ ".prof"))
      "a" 20 "%(asctime)s %(message)s"
    { st with profile_log := some [handler] }
  else st

/-- Model of `cProfile.Profile`: records how many profiled calls were run and
whether `create_stats` was called; timing content is abstract. -/
structure Profiler where
  ncalls : Nat
  statsCreated : Bool
deriving Repr, DecidableEq

/-- `cProfile.Profile()`: a fresh profiler with no recorded calls. -/
def Profiler.new : Profiler := { ncalls := 0, statsCreated := false }

/-- Model of `Profile.runcall(func, *args)`: invoke the function, returning
its result unchanged, while recording the profiled call as a side effect. -/
def Profiler.runcall {α : Type} (p : Profiler) (f : Unit → α) : α × Profiler :=
  (f (), { p with ncalls := p.ncalls + 1 })

/-- Model of `Profile.create_stats()`. -/
def Profiler.create_stats (p : Profiler) : Profiler :=
  { p with statsCreated := true }

/-- Model of the text `Profile.print_stats n` writes to stdout: the top-n
cumulative-time summary of the recorded statistics. -/
def Profiler.print_stats (p : Profiler) (n : Nat) : String :=
  "         " ++ toString p.ncalls ++ " function calls (top " ++ toString n
    ++ " sorted by cumulative time)\n"

/-- The middleware instance state: `self.profiler` is an attribute that only
exists after `process_view` ran with profiling active. -/
structure LoggingMiddleware where
  profiler : Option Profiler
deriving Repr, DecidableEq

/-- A freshly constructed middleware instance (no `profiler` attribute). -/
def LoggingMiddleware.new : LoggingMiddleware := { profiler := none }

/-- `LoggingMiddleware.process_request`: set up logging. -/
def process_request (settings : Settings) (st : LogState) : LogState :=
  ensure_loggers settings st

/-- `LoggingMiddleware.process_view`: when the URL carries a `profiling`
parameter and `LOGGING_ALLOW_PROFILING` is set, create a profiler, run the
view under it and return its result (overriding normal dispatch); otherwise
return no override (`None`). -/
def process_view {A K V : Type} (settings : Settings) (self : LoggingMiddleware)
    (request : Request) (callback : Request → A → K → V)
    (callback_args : A) (callback_kwargs : K) : LoggingMiddleware × Option V :=
  if request.hasProfiling && settings.LOGGING_ALLOW_PROFILING then
    let profiler := Profiler.new
    let rp := profiler.runcall (fun _ => callback request callback_args callback_kwargs)
    ({ self with profiler := some rp.2 }, some rp.1)
  else
    (self, none)

/-- `LoggingMiddleware.process_response`: when profiling is requested and
allowed, lazily set up the profile logger, finalize the profiler statistics,
capture the `print_stats(1)` text, and submit two records to `_profile_log`:
a header naming the request path and method, then the stripped statistics
text.  Each `.log` call goes through `profileLogInfo`, which keeps
`Logger.log`'s `isEnabledFor` gate: the records reach the sink only when the
root logger's level (inherited by the `"profile"` logger) admits `INFO`.
Accessing a missing `self.profiler` attribute or calling `.log` on a
still-`None` `_profile_log` raises `AttributeError`, which propagates (the
error value carries the global state at the raise).  Otherwise the given
response is returned unchanged. -/
def process_response (settings : Settings) (self : LoggingMiddleware)
    (st : LogState) (request : Request) (response : Response) :
    Except (String × LogState) (LogState × Response) :=
  if request.hasProfiling && settings.LOGGING_ALLOW_PROFILING then
    let st1 := ensure_profile_logger settings st
    match self.profiler with
    | none => .error ("AttributeError: LoggingMiddleware instance has no attribute profiler", st1)
    | some p =>
      let p1 := p.create_stats
      let out := p1.print_stats 1
      match st1.profile_log with
      | none => .error ("AttributeError: NoneType object has no attribute log", st1)
      | some _ =>
        let header := "Profiling results for " ++ request.path
          ++ " (HTTP " ++ request.method ++ "):"
        let st2 := profileLogInfo st1 header
        let st3 := profileLogInfo st2 (pyStrip out)
        .ok (st3, response)
  else
    .ok (st, response)

/-- The log level `ensure_loggers` configures: `LOGGING_LEVEL` resolved
through `getLevelName`, defaulting to `DEFAULT_LOG_LEVEL`. -/
def configuredLevel (s : Settings) : Nat :=
  getLevelName (s.LOGGING_LEVEL.getD DEFAULT_LOG_LEVEL)

/-- The line format `ensure_loggers` configures: `LOGGING_LINE_FORMAT`
defaulting to `DEFAULT_LINE_FORMAT`. -/
def configuredFormat (s : Settings) : String :=
  s.LOGGING_LINE_FORMAT.getD DEFAULT_LINE_FORMAT

/-- The general log file path `{directory}/{name}.log` built by
`ensure_loggers`. -/
def logFilePath (s : Settings) : String :=
  os_path_join (s.LOGGING_DIRECTORY.getD "") (s.LOGGING_NAME.getD "" ++ ".log")

/-- The profiling log file path `{directory}/{name}.prof` built by
`ensure_profile_logger`. -/
def profFilePath (s : Settings) : String :=
  os_path_join (s.LOGGING_DIRECTORY.getD "") (s.LOGGING_NAME.getD "" ++ ".prof")

/-- The guard of `ensure_profile_logger`: logging enabled, directory and name
set, no profile log yet, profiling allowed. -/
def profileSinkCond (s : Settings) (st : LogState) : Bool :=
  s.LOGGING_ENABLED && truthyStr s.LOGGING_DIRECTORY && truthyStr s.LOGGING_NAME &&
    st.profile_log.isNone && s.LOGGING_ALLOW_PROFILING

/-- A valid sample configuration used to instantiate the theorems. -/
def sampleSettings : Settings :=
  { LOGGING_ENABLED := true
    LOGGING_DIRECTORY := some "/var/log"
    LOGGING_NAME := some "site"
    LOGGING_ALLOW_PROFILING := true
    LOGGING_LINE_FORMAT := none
    LOGGING_LEVEL := none
    DEBUG := false }

/-- `sampleSettings` with logging disabled but profiling still allowed. -/
def sampleBadSettings : Settings :=
  { sampleSettings with LOGGING_ENABLED := false }

/-- `sampleSettings` with profiling disallowed. -/
def sampleNoProfSettings : Settings :=
  { sampleSettings with LOGGING_ALLOW_PROFILING := false }

/-- `sampleSettings` at minimum severity `ERROR`: a valid configuration whose
root level (40) is above `INFO`. -/
def sampleErrorSettings : Settings :=
  { sampleSettings with LOGGING_LEVEL := some "ERROR" }

/-- A sample request carrying `?profiling=1`. -/
def sampleRequest : Request :=
  { GET := [("profiling", "1")], path := "/dashboard/", method := "GET" }

/-- A sample response. -/
def sampleResponse : Response := { content := "ok", status := 200 }

/-! ### Helper lemmas -/

theorem ensure_loggers_of_setup (s : Settings) (st : LogState)
    (h : st.logging_setup = true) : ensure_loggers s st = st := by
  simp [ensure_loggers, h]

theorem ensure_loggers_of_invalid (s : Settings) (st : LogState)
    (h : s.LOGGING_ENABLED = false ∨ truthyStr s.LOGGING_DIRECTORY = false ∨
      truthyStr s.LOGGING_NAME = false) :
    ensure_loggers s st = st := by
  unfold ensure_loggers
  rcases h with h | h | h <;> simp [h]

theorem ensure_loggers_eq_of_valid (s : Settings) (st : LogState)
    (hen : s.LOGGING_ENABLED = true) (hdir : truthyStr s.LOGGING_DIRECTORY = true)
    (hname : truthyStr s.LOGGING_NAME = true) (hsetup : st.logging_setup = false)
    (hroot : st.root_handlers = []) :
    ensure_loggers s st =
      { st with
          logging_setup := true
          root_level := configuredLevel s
          root_handlers :=
            Handler.file (logFilePath s) "a" 0 (configuredFormat s) ::
              (if s.DEBUG then [Handler.stream (configuredLevel s) (configuredFormat s)] else [])
          root_records :=
            if configuredLevel s ≤ 20 then
              st.root_records ++
                [(20, "Logging to " ++ logFilePath s ++ " with a minimum level of "
                  ++ s.LOGGING_LEVEL.getD DEFAULT_LOG_LEVEL)]
            else st.root_records } := by
  unfold ensure_loggers basicConfig logInfo
  simp only [hen, hdir, hname, hsetup, hroot, configuredLevel, configuredFormat,
    logFilePath, Bool.not_true, Bool.false_or, Bool.or_self, if_false,
    Bool.false_eq_true, List.isEmpty_nil, if_true]
  by_cases hdbg : s.DEBUG = true <;>
    simp only [hdbg, if_true, if_false, Bool.false_eq_true, List.nil_append,
      List.singleton_append] <;>
    split <;> rfl

theorem ensure_profile_logger_of_cond (s : Settings) (st : LogState)
    (h : profileSinkCond s st = true) :
    ensure_profile_logger s st =
      { st with
          profile_log := some [Handler.file (profFilePath s) "a" 20 "%(asctime)s %(message)s"] } := by
  unfold ensure_profile_logger
  unfold profileSinkCond at h
  simp only [Bool.and_eq_true] at h
  obtain ⟨⟨⟨⟨h1, h2⟩, h3⟩, h4⟩, h5⟩ := h
  simp [h1, h2, h3, h4, h5, profFilePath]

theorem ensure_profile_logger_of_not_cond (s : Settings) (st : LogState)
    (h : profileSinkCond s st = false) :
    ensure_profile_logger s st = st := by
  unfold ensure_profile_logger
  unfold profileSinkCond at h
  simp [h]

theorem ensure_profile_logger_of_some (s : Settings) (st : LogState)
    (h : st.profile_log ≠ none) : ensure_profile_logger s st = st := by
  apply ensure_profile_logger_of_not_cond
  unfold profileSinkCond
  simp [Option.isNone_iff_eq_none, h]

theorem ensure_profile_logger_root_level (s : Settings) (st : LogState) :
    (ensure_profile_logger s st).root_level = st.root_level := by
  by_cases h : profileSinkCond s st = true
  · rw [ensure_profile_logger_of_cond s st h]
  · rw [ensure_profile_logger_of_not_cond s st (by simpa using h)]

theorem profileLogInfo_of_le (st : LogState) (msg : String)
    (h : st.root_level ≤ 20) :
    profileLogInfo st msg =
      { st with profile_records := st.profile_records ++ [(20, msg)] } := by
  unfold profileLogInfo
  rw [if_pos h]

theorem profileLogInfo_of_gt (st : LogState) (msg : String)
    (h : 20 < st.root_level) :
    profileLogInfo st msg = st := by
  unfold profileLogInfo
  rw [if_neg (Nat.not_le.mpr h)]

/-! ### Claim theorems -/

/-- Claim C1.  The claim states that `process_response` always returns the
response unmodified and never raises, even when the profiling activation
condition holds but the profiling sink was never created.  The code violates
this: with `LOGGING_ALLOW_PROFILING = true` but `LOGGING_ENABLED = false`, a
request carrying `?profiling=1` that went through `process_view` makes
`process_response` call `.log` on the still-`None` global `_profile_log`,
raising `AttributeError` instead of returning the response. -/
theorem process_response_raises_without_sink :
    process_response sampleBadSettings
      (process_view sampleBadSettings LoggingMiddleware.new sampleRequest
        (fun _ _ _ => sampleResponse) () ()).1
      (ensure_loggers sampleBadSettings LogState.initial) sampleRequest sampleResponse =
      .error ("AttributeError: NoneType object has no attribute log", LogState.initial) := by
  rfl

/-- Claim C2: when profiling is active (`profiling` in the query string and
`LOGGING_ALLOW_PROFILING` true), `process_view` returns exactly the value the
view returns when called directly with the request and its arguments, with
the profiler only recording the call as a side effect on `self.profiler`. -/
theorem process_view_transparent_passthrough {A K V : Type} (settings : Settings)
    (self : LoggingMiddleware) (request : Request) (callback : Request → A → K → V)
    (args : A) (kwargs : K)
    (hprof : request.hasProfiling = true)
    (hallow : settings.LOGGING_ALLOW_PROFILING = true) :
    process_view settings self request callback args kwargs =
      ({ self with profiler := some { ncalls := 1, statsCreated := false } },
        some (callback request args kwargs)) := by
  simp [process_view, hprof, hallow, Profiler.runcall, Profiler.new]

/-- Witness for C2 at a concrete profiled request. -/
theorem process_view_transparent_passthrough_witness :
    process_view sampleSettings LoggingMiddleware.new sampleRequest
        (fun r _ _ => Response.mk r.path 200) () () =
      ({ profiler := some { ncalls := 1, statsCreated := false } },
        some (Response.mk "/dashboard/" 200)) :=
  process_view_transparent_passthrough sampleSettings LoggingMiddleware.new sampleRequest
    (fun r _ _ => Response.mk r.path 200) () () (by decide) rfl

/-- Claim C5: when `LOGGING_ENABLED` is false or the directory or name is
missing, `ensure_loggers` returns without raising and without performing any
setup, so after any number of requests the state is unchanged, the
initialized flag remains false and no log handler exists. -/
theorem ensure_loggers_silent_skip (settings : Settings) (st : LogState) (n : Nat)
    (hinvalid : settings.LOGGING_ENABLED = false ∨
      truthyStr settings.LOGGING_DIRECTORY = false ∨
      truthyStr settings.LOGGING_NAME = false)
    (hsetup : st.logging_setup = false) :
    (ensure_loggers settings)^[n] st = st ∧
    ((ensure_loggers settings)^[n] st).logging_setup = false ∧
    ((ensure_loggers settings)^[n] st).root_handlers = st.root_handlers := by
  have hfix : ensure_loggers settings st = st := ensure_loggers_of_invalid settings st hinvalid
  have hit : (ensure_loggers settings)^[n] st = st := Function.iterate_fixed hfix n
  exact ⟨hit, by rw [hit, hsetup], by rw [hit]⟩

/-- Witness for C5: five requests under disabled logging change nothing. -/
theorem ensure_loggers_silent_skip_witness :
    (ensure_loggers sampleBadSettings)^[5] LogState.initial = LogState.initial ∧
    ((ensure_loggers sampleBadSettings)^[5] LogState.initial).logging_setup = false ∧
    ((ensure_loggers sampleBadSettings)^[5] LogState.initial).root_handlers =
      LogState.initial.root_handlers :=
  ensure_loggers_silent_skip sampleBadSettings LogState.initial 5 (Or.inl rfl) rfl

/-- Claim C3: under a valid logging configuration the global setup in
`ensure_loggers` runs exactly once: the first call performs the setup
(registers handlers) and sets the initialized flag, and every subsequent call
— with any settings, and over any number of further sequential requests —
returns the state unchanged, registering no further handler. -/
theorem ensure_loggers_runs_once (settings : Settings) (st : LogState) (n : Nat)
    (hen : settings.LOGGING_ENABLED = true)
    (hdir : truthyStr settings.LOGGING_DIRECTORY = true)
    (hname : truthyStr settings.LOGGING_NAME = true)
    (hsetup : st.logging_setup = false) (hroot : st.root_handlers = []) :
    (ensure_loggers settings st).logging_setup = true ∧
    (ensure_loggers settings st).root_handlers ≠ [] ∧
    (∀ s' : Settings, ensure_loggers s' (ensure_loggers settings st) = ensure_loggers settings st) ∧
    (ensure_loggers settings)^[n + 1] st = ensure_loggers settings st := by
  have heq := ensure_loggers_eq_of_valid settings st hen hdir hname hsetup hroot
  have hset : (ensure_loggers settings st).logging_setup = true := by rw [heq]
  refine ⟨hset, ?_, ?_, ?_⟩
  · rw [heq]; simp
  · intro s'
    exact ensure_loggers_of_setup s' _ hset
  · rw [Function.iterate_succ_apply]
    exact Function.iterate_fixed (ensure_loggers_of_setup settings _ hset) n

/-- Witness for C3: a valid configuration, three requests. -/
theorem ensure_loggers_runs_once_witness :
    (ensure_loggers sampleSettings LogState.initial).logging_setup = true ∧
    (ensure_loggers sampleSettings LogState.initial).root_handlers ≠ [] ∧
    ensure_loggers sampleBadSettings (ensure_loggers sampleSettings LogState.initial) =
      ensure_loggers sampleSettings LogState.initial ∧
    (ensure_loggers sampleSettings)^[3] LogState.initial =
      ensure_loggers sampleSettings LogState.initial := by
  have h := ensure_loggers_runs_once sampleSettings LogState.initial 2
    rfl (by decide) (by decide) rfl rfl
  exact ⟨h.1, h.2.1, h.2.2.1 sampleBadSettings, h.2.2.2⟩

/-- Claim C4: the view is wrapped in the profiler if and only if the query
string contains a `profiling` parameter and `LOGGING_ALLOW_PROFILING` is
true; when `LOGGING_ALLOW_PROFILING` is false, `process_view` returns no
override and leaves `self` untouched, `process_response` returns the state
and response unchanged, and `ensure_profile_logger` creates no sink, so no
`.prof` output is produced. -/
theorem profiling_requires_optin_and_allowed {A K V : Type} (settings : Settings)
    (self : LoggingMiddleware) (st : LogState) (request : Request) (response : Response)
    (callback : Request → A → K → V) (args : A) (kwargs : K) :
    ((process_view settings self request callback args kwargs).2.isSome = true ↔
      (request.hasProfiling = true ∧ settings.LOGGING_ALLOW_PROFILING = true)) ∧
    (settings.LOGGING_ALLOW_PROFILING = false →
      process_view settings self request callback args kwargs = (self, none) ∧
      process_response settings self st request response = .ok (st, response) ∧
      (ensure_profile_logger settings st).profile_log = st.profile_log) := by
  constructor
  · by_cases h1 : request.hasProfiling = true <;>
      by_cases h2 : settings.LOGGING_ALLOW_PROFILING = true <;>
      simp [process_view, h1, h2, Bool.not_eq_true] at *
  · intro hfalse
    refine ⟨by simp [process_view, hfalse], by simp [process_response, hfalse], ?_⟩
    rw [ensure_profile_logger_of_not_cond settings st
      (by unfold profileSinkCond; simp [hfalse])]

/-- Witness for C4: with profiling disallowed, a `?profiling=1` request gets
no override, an unchanged response, and no profiling sink. -/
theorem profiling_requires_optin_and_allowed_witness :
    process_view sampleNoProfSettings LoggingMiddleware.new sampleRequest
        (fun r _ _ => Response.mk r.path 200) () () = (LoggingMiddleware.new, none) ∧
    process_response sampleNoProfSettings LoggingMiddleware.new LogState.initial
        sampleRequest sampleResponse = .ok (LogState.initial, sampleResponse) ∧
    (ensure_profile_logger sampleNoProfSettings LogState.initial).profile_log =
      LogState.initial.profile_log :=
  (profiling_requires_optin_and_allowed sampleNoProfSettings LoggingMiddleware.new
      LogState.initial sampleRequest sampleResponse
      (fun r _ _ => Response.mk r.path 200) () ()).2 rfl

/-- Counterexample to claim C6 as stated: under the valid configuration with
`LOGGING_LEVEL = "ERROR"` — after its one-time initialization the root level
is 40 — a profiled request (opt-in present, profiling allowed, profiler
recorded, and the sink existing after the lazy setup) appends zero records to
the profiling sink instead of the claimed two: `Logger.log`'s `isEnabledFor`
gate, evaluated against the effective level the `"profile"` logger inherits
from the root, drops both calls, and the returned state is exactly the input
state after sink creation, its record list still empty. -/
theorem process_response_drops_records_at_error_level :
    sampleRequest.hasProfiling = true ∧
    sampleErrorSettings.LOGGING_ALLOW_PROFILING = true ∧
    (ensure_profile_logger sampleErrorSettings
        (ensure_loggers sampleErrorSettings LogState.initial)).profile_log.isSome = true ∧
    process_response sampleErrorSettings (LoggingMiddleware.mk (some (Profiler.mk 1 false)))
        (ensure_loggers sampleErrorSettings LogState.initial) sampleRequest sampleResponse =
      .ok (ensure_profile_logger sampleErrorSettings
             (ensure_loggers sampleErrorSettings LogState.initial),
           sampleResponse) ∧
    (ensure_profile_logger sampleErrorSettings
        (ensure_loggers sampleErrorSettings LogState.initial)).profile_records = [] := by
  refine ⟨rfl, rfl, ?_, ?_, ?_⟩ <;> rfl

/-- Claim C6 (amended): for a profiled request (activation condition holds,
the profiler was recorded by `process_view`, and the profiling sink exists
after the lazy setup), `process_response` submits exactly two records to the
profiling sink — first a header naming the request's path and HTTP method,
then the profiler statistics rendered as the top-1 cumulative-time summary —
provided the root logger's level (which the `"profile"` logger inherits,
its own level never being set) admits `INFO`, as it does under the default
`LOGGING_LEVEL` of `DEBUG`; when the root level is above `INFO`, both `.log`
calls are dropped by the `isEnabledFor` gate and nothing is written.  The
response is returned unchanged either way. -/
theorem process_response_writes_two_records (settings : Settings)
    (self : LoggingMiddleware) (st : LogState) (request : Request)
    (response : Response) (p : Profiler)
    (hprof : request.hasProfiling = true)
    (hallow : settings.LOGGING_ALLOW_PROFILING = true)
    (hp : self.profiler = some p)
    (hsink : (ensure_profile_logger settings st).profile_log.isSome = true) :
    (st.root_level ≤ 20 →
      process_response settings self st request response =
        .ok ({ ensure_profile_logger settings st with
                 profile_records := (ensure_profile_logger settings st).profile_records ++
                   [(20, "Profiling results for " ++ request.path
                      ++ " (HTTP " ++ request.method ++ "):"),
                    (20, pyStrip (p.create_stats.print_stats 1))] },
             response)) ∧
    (20 < st.root_level →
      process_response settings self st request response =
        .ok (ensure_profile_logger settings st, response)) := by
  obtain ⟨hs, hval⟩ := Option.isSome_iff_exists.mp hsink
  have hrl := ensure_profile_logger_root_level settings st
  constructor
  · intro hlvl
    have h1 : (ensure_profile_logger settings st).root_level ≤ 20 := by
      rw [hrl]; exact hlvl
    have h2 : (({ ensure_profile_logger settings st with
        profile_records := (ensure_profile_logger settings st).profile_records ++
          [(20, "Profiling results for " ++ request.path ++ " (HTTP "
            ++ request.method ++ "):")] } : LogState)).root_level ≤ 20 := h1
    simp only [process_response, hprof, hallow, Bool.and_self, if_true, hp, hval]
    rw [profileLogInfo_of_le _ _ h1, profileLogInfo_of_le _ _ h2]
    simp [hval]
  · intro hlvl
    have h1 : 20 < (ensure_profile_logger settings st).root_level := by
      rw [hrl]; exact hlvl
    simp only [process_response, hprof, hallow, Bool.and_self, if_true, hp, hval]
    rw [profileLogInfo_of_gt _ _ h1, profileLogInfo_of_gt _ _ h1]

/-- Witness for the amended C6 at a concrete profiled request, after the
one-time initialization under the sample settings (default level `DEBUG`,
root level 10, which admits `INFO`). -/
theorem process_response_writes_two_records_witness :
    process_response sampleSettings (LoggingMiddleware.mk (some (Profiler.mk 1 false)))
        (ensure_loggers sampleSettings LogState.initial) sampleRequest sampleResponse =
      .ok ({ logging_setup := true
             root_level := 10
             root_handlers := [Handler.file "/var/log/site.log" "a" 0 DEFAULT_LINE_FORMAT]
             root_records := [(20, "Logging to /var/log/site.log with a minimum level of DEBUG")]
             profile_log := some [Handler.file "/var/log/site.prof" "a" 20
               "%(asctime)s %(message)s"]
             profile_records :=
               [(20, "Profiling results for /dashboard/ (HTTP GET):"),
                (20, "1 function calls (top 1 sorted by cumulative time)")] },
           sampleResponse) := by
  have h := (process_response_writes_two_records sampleSettings
    (LoggingMiddleware.mk (some (Profiler.mk 1 false)))
    (ensure_loggers sampleSettings LogState.initial) sampleRequest sampleResponse
    (Profiler.mk 1 false) (by decide) rfl rfl (by decide)).1 (by decide)
  rw [h]
  rfl

/-- Claim C7: under a valid configuration the general log handler is a file
handler opened in append mode on exactly `join(LOGGING_DIRECTORY,
LOGGING_NAME + ".log")`, and the profiling sink is a file handler on
`join(LOGGING_DIRECTORY, LOGGING_NAME + ".prof")` at `INFO` severity (20)
with the timestamp-plus-message line format. -/
theorem log_and_profile_file_paths (s : Settings) (st : LogState) (d nm : String)
    (hdir : s.LOGGING_DIRECTORY = some d) (hd : d ≠ "")
    (hname : s.LOGGING_NAME = some nm) (hn : nm ≠ "")
    (hen : s.LOGGING_ENABLED = true)
    (hsetup : st.logging_setup = false) (hroot : st.root_handlers = [])
    (hallow : s.LOGGING_ALLOW_PROFILING = true) (hnoprof : st.profile_log = none) :
    (ensure_loggers s st).root_handlers.head? =
      some (Handler.file (os_path_join d (nm ++ ".log")) "a" 0 (configuredFormat s)) ∧
    (ensure_profile_logger s st).profile_log =
      some [Handler.file (os_path_join d (nm ++ ".prof")) "a" 20
        "%(asctime)s %(message)s"] := by
  have htd : truthyStr s.LOGGING_DIRECTORY = true := by
    rw [hdir]; simp [truthyStr, hd]
  have htn : truthyStr s.LOGGING_NAME = true := by
    rw [hname]; simp [truthyStr, hn]
  constructor
  · rw [ensure_loggers_eq_of_valid s st hen htd htn hsetup hroot]
    simp [logFilePath, hdir, hname]
  · rw [ensure_profile_logger_of_cond s st
      (by unfold profileSinkCond; simp [hen, htd, htn, hnoprof, hallow])]
    simp [profFilePath, hdir, hname]

/-- Witness for C7 at the sample configuration. -/
theorem log_and_profile_file_paths_witness :
    (ensure_loggers sampleSettings LogState.initial).root_handlers.head? =
      some (Handler.file (os_path_join "/var/log" ("site" ++ ".log")) "a" 0
        (configuredFormat sampleSettings)) ∧
    (ensure_profile_logger sampleSettings LogState.initial).profile_log =
      some [Handler.file (os_path_join "/var/log" ("site" ++ ".prof")) "a" 20
        "%(asctime)s %(message)s"] :=
  log_and_profile_file_paths sampleSettings LogState.initial "/var/log" "site"
    rfl (by decide) rfl (by decide) rfl rfl rfl rfl rfl

/-- Claim C8: during a valid initialization a second console handler is
attached if and only if `settings.DEBUG` is active; it carries the same line
format as the file handler and the same effective delivery threshold (the
root level set by the configuration, against which the file handler's unset
`NOTSET` level and the console handler's explicit level coincide).  When
`DEBUG` is inactive the root logger's only handler is the file handler, so
log records go only to the file. -/
theorem console_mirror_iff_debug (s : Settings) (st : LogState)
    (hen : s.LOGGING_ENABLED = true) (hdir : truthyStr s.LOGGING_DIRECTORY = true)
    (hname : truthyStr s.LOGGING_NAME = true)
    (hsetup : st.logging_setup = false) (hroot : st.root_handlers = []) :
    (s.DEBUG = true →
      (ensure_loggers s st).root_handlers =
        [Handler.file (logFilePath s) "a" 0 (configuredFormat s),
         Handler.stream (configuredLevel s) (configuredFormat s)] ∧
      (Handler.stream (configuredLevel s) (configuredFormat s)).format =
        (Handler.file (logFilePath s) "a" 0 (configuredFormat s)).format ∧
      (Handler.stream (configuredLevel s) (configuredFormat s)).effectiveLevel
          (ensure_loggers s st).root_level =
        (Handler.file (logFilePath s) "a" 0 (configuredFormat s)).effectiveLevel
          (ensure_loggers s st).root_level) ∧
    (s.DEBUG = false →
      (ensure_loggers s st).root_handlers =
        [Handler.file (logFilePath s) "a" 0 (configuredFormat s)]) := by
  have heq := ensure_loggers_eq_of_valid s st hen hdir hname hsetup hroot
  constructor
  · intro hdbg
    refine ⟨by rw [heq]; simp [hdbg], rfl, ?_⟩
    rw [heq]
    simp [Handler.effectiveLevel, Handler.level]
  · intro hdbg
    rw [heq]
    simp [hdbg]

/-- Witness for C8 in both debug modes at the sample configuration. -/
theorem console_mirror_iff_debug_witness :
    (ensure_loggers { sampleSettings with DEBUG := true } LogState.initial).root_handlers =
      [Handler.file (logFilePath { sampleSettings with DEBUG := true }) "a" 0
        (configuredFormat { sampleSettings with DEBUG := true }),
       Handler.stream (configuredLevel { sampleSettings with DEBUG := true })
        (configuredFormat { sampleSettings with DEBUG := true })] ∧
    (ensure_loggers sampleSettings LogState.initial).root_handlers =
      [Handler.file (logFilePath sampleSettings) "a" 0 (configuredFormat sampleSettings)] :=
  ⟨((console_mirror_iff_debug { sampleSettings with DEBUG := true } LogState.initial
      rfl (by decide) (by decide) rfl rfl).1 rfl).1,
   (console_mirror_iff_debug sampleSettings LogState.initial
      rfl (by decide) (by decide) rfl rfl).2 rfl⟩

/-- Claim C9: the silent-skip path of `ensure_loggers` leaves the whole
process-wide state unchanged — in particular the initialized flag stays
false — so a later request under a configuration that has become valid still
performs the one-time initialization. -/
theorem skip_preserves_state_then_initializes (s1 s2 : Settings) (st : LogState)
    (hinvalid : s1.LOGGING_ENABLED = false ∨ truthyStr s1.LOGGING_DIRECTORY = false ∨
      truthyStr s1.LOGGING_NAME = false)
    (hen : s2.LOGGING_ENABLED = true) (hdir : truthyStr s2.LOGGING_DIRECTORY = true)
    (hname : truthyStr s2.LOGGING_NAME = true)
    (hsetup : st.logging_setup = false) (hroot : st.root_handlers = []) :
    ensure_loggers s1 st = st ∧
    (ensure_loggers s2 (ensure_loggers s1 st)).logging_setup = true ∧
    (ensure_loggers s2 (ensure_loggers s1 st)).root_handlers ≠ [] := by
  have hskip := ensure_loggers_of_invalid s1 st hinvalid
  have heq := ensure_loggers_eq_of_valid s2 st hen hdir hname hsetup hroot
  refine ⟨hskip, ?_, ?_⟩
  · rw [hskip, heq]
  · rw [hskip, heq]
    simp

/-- Witness for C9: a disabled request then a valid one. -/
theorem skip_preserves_state_then_initializes_witness :
    ensure_loggers sampleBadSettings LogState.initial = LogState.initial ∧
    (ensure_loggers sampleSettings
      (ensure_loggers sampleBadSettings LogState.initial)).logging_setup = true ∧
    (ensure_loggers sampleSettings
      (ensure_loggers sampleBadSettings LogState.initial)).root_handlers ≠ [] :=
  skip_preserves_state_then_initializes sampleBadSettings sampleSettings LogState.initial
    (Or.inl rfl) rfl (by decide) (by decide) rfl rfl

/-- Claim C10: `ensure_profile_logger` changes the profiling sink if and only
if logging is enabled, directory and name are set, no sink exists yet and
profiling is allowed; once a sink exists, every later call — under any
settings — returns the state unchanged, so the sink is created at most once
per process lifetime. -/
theorem profile_sink_created_at_most_once (s : Settings) (st : LogState) :
    ((ensure_profile_logger s st).profile_log ≠ st.profile_log ↔
      (s.LOGGING_ENABLED = true ∧ truthyStr s.LOGGING_DIRECTORY = true ∧
       truthyStr s.LOGGING_NAME = true ∧ st.profile_log = none ∧
       s.LOGGING_ALLOW_PROFILING = true)) ∧
    (∀ s' : Settings, st.profile_log ≠ none → ensure_profile_logger s' st = st) := by
  constructor
  · by_cases hc : profileSinkCond s st = true
    · rw [ensure_profile_logger_of_cond s st hc]
      unfold profileSinkCond at hc
      simp only [Bool.and_eq_true] at hc
      obtain ⟨⟨⟨⟨h1, h2⟩, h3⟩, h4⟩, h5⟩ := hc
      have h4' : st.profile_log = none := Option.isNone_iff_eq_none.mp h4
      simp [h1, h2, h3, h4', h5]
    · have hc' : profileSinkCond s st = false := by simpa using hc
      rw [ensure_profile_logger_of_not_cond s st hc']
      simp only [ne_eq, not_true_eq_false, false_iff, not_and]
      intro h1 h2 h3 h4 h5
      apply hc
      unfold profileSinkCond
      rw [h1, h2, h3, h4, h5]
      rfl
  · intro s' h
    exact ensure_profile_logger_of_some s' st h

/-- Witness for C10: creation under the full condition, then no change once
the sink exists. -/
theorem profile_sink_created_at_most_once_witness :
    (ensure_profile_logger sampleSettings LogState.initial).profile_log ≠
      LogState.initial.profile_log ∧
    ensure_profile_logger sampleBadSettings
        { LogState.initial with profile_log := some [] } =
      { LogState.initial with profile_log := some [] } :=
  ⟨(profile_sink_created_at_most_once sampleSettings LogState.initial).1.mpr
      ⟨rfl, by decide, by decide, rfl, rfl⟩,
   (profile_sink_created_at_most_once sampleBadSettings
      { LogState.initial with profile_log := some [] }).2 sampleBadSettings (by decide)⟩

end Djblets
